import Mathlib

/-!
Shallow embedding of the `mcp-shortcut` server (files `client.py` and
`server.py`) and proofs about its request-building, error-handling and
result-filtering behaviour.

Conventions of the embedding:
* JSON values are modelled by the inductive `JVal`; Python `None` is `JVal.jnull`.
* A Python `dict` used as a request body is a `List (String × JVal)` in
  insertion order (all bodies built by the handlers use pairwise-distinct keys,
  so no overwriting arises).
* An optional handler parameter `x : Optional[T] = None` is an `Option T`;
  Python truthiness of such a value (`if x:`) is `truthyStr` / `truthyInt` /
  `truthyStrList`.
* An exception is represented by its `str(e)` message; `try/except` blocks are
  `Except String` computations, and a raising client call is an oracle that
  returns `Except.error`.
-/

set_option autoImplicit false

/-- JSON-like values exchanged with the Shortcut API. -/
inductive JVal where
  | jnull
  | jstr (s : String)
  | jint (n : Int)
  | jarr (elems : List JVal)
  | jobj (fields : List (String × JVal))
  deriving Repr

/-- Python truthiness of an `Optional[str]`: `None` and `""` are falsy. -/
def truthyStr : Option String → Bool
  | none => false
  | some s => !s.isEmpty

/-- Python truthiness of an `Optional[int]`: `None` and `0` are falsy. -/
def truthyInt : Option Int → Bool
  | none => false
  | some n => n != 0

/-- Python truthiness of an `Optional[List[str]]`: `None` and `[]` are falsy. -/
def truthyStrList : Option (List String) → Bool
  | none => false
  | some l => !l.isEmpty

/-- Embedding of `if v: data[k] = v` for a string-valued optional parameter. -/
def optStrField (k : String) (v : Option String) : List (String × JVal) :=
  match v with
  | none => []
  | some s => if s.isEmpty then [] else [(k, JVal.jstr s)]

/-- Embedding of `if v: data[k] = v` for an int-valued optional parameter. -/
def optIntField (k : String) (v : Option Int) : List (String × JVal) :=
  match v with
  | none => []
  | some n => if n == 0 then [] else [(k, JVal.jint n)]

/-- Embedding of `if v is not None: data[k] = v` (used for `estimate` in
`update_story`): `0` is included, only `None` is dropped. -/
def optIntFieldIfNotNone (k : String) (v : Option Int) : List (String × JVal) :=
  match v with
  | none => []
  | some n => [(k, JVal.jint n)]

/-- Embedding of `if v: data[k] = v` for a list-of-strings parameter sent as a
JSON array of strings (`owner_ids`, `group_ids`). -/
def optStrListField (k : String) (v : Option (List String)) : List (String × JVal) :=
  match v with
  | none => []
  | some l => if l.isEmpty then [] else [(k, JVal.jarr (l.map JVal.jstr))]

/-- Embedding of `if labels: data["labels"] = [ ... name: label ... for label
in labels]`: each label becomes a one-field object. -/
def labelsField (k : String) (v : Option (List String)) : List (String × JVal) :=
  match v with
  | none => []
  | some l =>
    if l.isEmpty then [] else
      [(k, JVal.jarr (l.map (fun lab => JVal.jobj [("name", JVal.jstr lab)])))]

/-- A Python value that is either a string or `None`, as placed directly into a
dict (used by `create_iteration` for `start_date` / `end_date`). -/
def optStrJVal : Option String → JVal
  | none => JVal.jnull
  | some s => JVal.jstr s

/-- Request body built by `create_story` (server.py lines 179-196): `name`
always, every optional field guarded by Python truthiness, in source order. -/
def create_story_body (name : String) (description : Option String)
    (project_id workflow_state_id epic_id estimate : Option Int)
    (labels owner_ids : Option (List String)) : List (String × JVal) :=
  [("name", JVal.jstr name)]
    ++ optStrField "description" description
    ++ optIntField "project_id" project_id
    ++ optIntField "workflow_state_id" workflow_state_id
    ++ optIntField "epic_id" epic_id
    ++ optIntField "estimate" estimate
    ++ labelsField "labels" labels
    ++ optStrListField "owner_ids" owner_ids

/-- Request body built by `update_story` (server.py lines 218-235): every field
guarded by truthiness except `estimate`, which uses `is not None`. -/
def update_story_body (name description : Option String)
    (project_id workflow_state_id epic_id estimate : Option Int)
    (labels owner_ids : Option (List String)) : List (String × JVal) :=
  optStrField "name" name
    ++ optStrField "description" description
    ++ optIntField "project_id" project_id
    ++ optIntField "workflow_state_id" workflow_state_id
    ++ optIntField "epic_id" epic_id
    ++ optIntFieldIfNotNone "estimate" estimate
    ++ labelsField "labels" labels
    ++ optStrListField "owner_ids" owner_ids

/-- Request body built by `create_epic` (server.py lines 254-265): note the
`end_date` parameter is stored under the key `"deadline"`. -/
def create_epic_body (name : String) (description : Option String)
    (milestone_id : Option Int) (state start_date end_date : Option String) :
    List (String × JVal) :=
  [("name", JVal.jstr name)]
    ++ optStrField "description" description
    ++ optIntField "milestone_id" milestone_id
    ++ optStrField "state" state
    ++ optStrField "start_date" start_date
    ++ optStrField "deadline" end_date

/-- Request body built by `create_milestone` (server.py lines 282-289):
`start_date` is stored under `"started_at_override"` and `end_date` under
`"completed_at_override"`. -/
def create_milestone_body (name : String)
    (description start_date end_date : Option String) : List (String × JVal) :=
  [("name", JVal.jstr name)]
    ++ optStrField "description" description
    ++ optStrField "started_at_override" start_date
    ++ optStrField "completed_at_override" end_date

/-- Request body built by `create_iteration` (server.py lines 307-316):
`start_date` and `end_date` are placed in the initial dict literal
unconditionally (as JSON null when the parameter is `None`), while
`description` and `group_ids` are truthiness-guarded. -/
def create_iteration_body (name : String)
    (description start_date end_date : Option String)
    (group_ids : Option (List String)) : List (String × JVal) :=
  [("name", JVal.jstr name),
   ("start_date", optStrJVal start_date),
   ("end_date", optStrJVal end_date)]
    ++ optStrField "description" description
    ++ optStrListField "group_ids" group_ids

/-- Request body built by `create_label` (server.py lines 328-330). -/
def create_label_body (name : String) (description : Option String) :
    List (String × JVal) :=
  [("name", JVal.jstr name)] ++ optStrField "description" description

/-- Whether a request body (a Python dict) has an entry under key `k`. -/
def hasKey (l : List (String × JVal)) (k : String) : Bool :=
  l.any (fun p => p.1 == k)

theorem hasKey_append (a b : List (String × JVal)) (k : String) :
    hasKey (a ++ b) k = (hasKey a k || hasKey b k) := by
  simp [hasKey]

theorem hasKey_singleton (k2 k : String) (v : JVal) :
    hasKey [(k2, v)] k = (k2 == k) := by
  simp [hasKey]

theorem hasKey_cons (k2 k : String) (v : JVal) (l : List (String × JVal)) :
    hasKey ((k2, v) :: l) k = ((k2 == k) || hasKey l k) := by
  simp [hasKey]

theorem hasKey_optStrField (k2 k : String) (v : Option String) :
    hasKey (optStrField k2 v) k = (truthyStr v && (k2 == k)) := by
  cases v with
  | none => simp [optStrField, truthyStr, hasKey]
  | some s =>
    by_cases h : s.isEmpty <;> simp [optStrField, truthyStr, hasKey, h]

theorem hasKey_optIntField (k2 k : String) (v : Option Int) :
    hasKey (optIntField k2 v) k = (truthyInt v && (k2 == k)) := by
  cases v with
  | none => simp [optIntField, truthyInt, hasKey]
  | some n =>
    by_cases h : n = 0 <;> simp [optIntField, truthyInt, hasKey, h]

theorem hasKey_optIntFieldIfNotNone (k2 k : String) (v : Option Int) :
    hasKey (optIntFieldIfNotNone k2 v) k = (v.isSome && (k2 == k)) := by
  cases v <;> simp [optIntFieldIfNotNone, hasKey]

theorem hasKey_optStrListField (k2 k : String) (v : Option (List String)) :
    hasKey (optStrListField k2 v) k = (truthyStrList v && (k2 == k)) := by
  cases v with
  | none => simp [optStrListField, truthyStrList, hasKey]
  | some l =>
    by_cases h : l.isEmpty <;> simp [optStrListField, truthyStrList, hasKey, h]

theorem hasKey_labelsField (k2 k : String) (v : Option (List String)) :
    hasKey (labelsField k2 v) k = (truthyStrList v && (k2 == k)) := by
  cases v with
  | none => simp [labelsField, truthyStrList, hasKey]
  | some l =>
    by_cases h : l.isEmpty <;> simp [labelsField, truthyStrList, hasKey, h]

mutual

/-- Python `repr` of a JSON value (as `str` falls back to for containers). -/
def pyRepr : JVal → String
  | JVal.jnull => "None"
  | JVal.jstr s => "\x27" ++ s ++ "\x27"
  | JVal.jint n => toString n
  | JVal.jarr elems => "[" ++ pyReprElems elems ++ "]"
  | JVal.jobj fields => "\x7b" ++ pyReprFields fields ++ "\x7d"

/-- Comma-separated `repr`s of the elements of a Python list. -/
def pyReprElems : List JVal → String
  | [] => ""
  | [x] => pyRepr x
  | x :: y :: rest => pyRepr x ++ ", " ++ pyReprElems (y :: rest)

/-- Comma-separated `repr`s of the entries of a Python dict. -/
def pyReprFields : List (String × JVal) → String
  | [] => ""
  | [p] => "\x27" ++ p.1 ++ "\x27: " ++ pyRepr p.2
  | p :: q :: rest =>
    "\x27" ++ p.1 ++ "\x27: " ++ pyRepr p.2 ++ ", " ++ pyReprFields (q :: rest)

end

/-- Python `str()` of a JSON value, as interpolated by the handlers'
f-strings: strings verbatim, `None` as `"None"`, numbers decimal, containers
via `repr`. -/
def pyStr : JVal → String
  | JVal.jnull => "None"
  | JVal.jstr s => s
  | JVal.jint n => toString n
  | v => pyRepr v

/-- Python subscript `v[k]` on a parsed-JSON value: a key lookup on a dict
(raising `KeyError`, whose `str` is the quoted key, when absent) and a
`TypeError` on any non-dict value. -/
def jIndex (v : JVal) (k : String) : Except String JVal :=
  match v with
  | JVal.jobj fields =>
    match List.lookup k fields with
    | some x => Except.ok x
    | none => Except.error ("\x27" ++ k ++ "\x27")
  | _ => Except.error "TypeError: value is not subscriptable"

/-- Python `k in v` on a parsed-JSON value: key membership for a dict,
element equality for a list, substring test for a string. (On a number or
`None`, Python raises `TypeError`; the one caller wraps this test in a
`try/except` whose handler returns the same result as the `False` branch, so
`false` is observationally faithful there.) -/
def jHasKey (v : JVal) (k : String) : Bool :=
  match v with
  | JVal.jobj fields => (List.lookup k fields).isSome
  | JVal.jarr elems =>
    elems.any (fun x => match x with | JVal.jstr s => s == k | _ => false)
  | JVal.jstr s => (s.splitOn k).length != 1
  | _ => false

/-- Python truthiness of a parsed-JSON value. -/
def jTruthy : JVal → Bool
  | JVal.jnull => false
  | JVal.jstr s => !s.isEmpty
  | JVal.jint n => n != 0
  | JVal.jarr elems => !elems.isEmpty
  | JVal.jobj fields => !fields.isEmpty

/-- A GET request as issued through `client.get(endpoint, params)`. -/
structure GetRequest where
  endpoint : String
  params : Option (List (String × JVal))
  deriving Repr

/-- A body-carrying request as issued through `client.post` / `client.put`. -/
structure BodyRequest where
  verb : String
  endpoint : String
  body : List (String × JVal)
  deriving Repr

/-- The `for item in results["data"]` loop of `search_stories` (server.py
lines 156-158): keep `item["data"]` exactly for items whose `item["type"]`
equals `"story"`, in order; a missing key propagates as an exception. -/
def search_filter : List JVal → Except String (List JVal)
  | [] => Except.ok []
  | item :: rest => do
    let t ← jIndex item "type"
    match t with
    | JVal.jstr s =>
      if s == "story" then do
        let d ← jIndex item "data"
        let tail ← search_filter rest
        Except.ok (d :: tail)
      else search_filter rest
    | _ => search_filter rest

/-- The body of `search_stories` after the client call (server.py lines
153-160): `if "data" in results and results["data"]:` guarding the filtering
loop; iterating a non-list raises. -/
def search_collect (results : JVal) : Except String (List JVal) :=
  if jHasKey results "data" then do
    let d ← jIndex results "data"
    if jTruthy d then
      match d with
      | JVal.jarr items => search_filter items
      | _ => Except.error "TypeError: value is not iterable"
    else Except.ok []
  else Except.ok []

/-- Handler `search_stories` (server.py lines 144-163), instrumented with the
list of GET requests it issues. The client is an oracle from (endpoint,
params) to a result; any exception — from the client or from the result
processing — is caught and turned into the empty list. -/
def search_stories {ε : Type} (query : String)
    (get : String → Option (List (String × JVal)) → Except ε JVal) :
    List GetRequest × List JVal :=
  let params : List (String × JVal) :=
    [("query", JVal.jstr query), ("page_size", JVal.jint 25)]
  ([⟨"/search", some params⟩],
   match get "/search" (some params) with
   | Except.error _ => []
   | Except.ok results =>
     match search_collect results with
     | Except.error _ => []
     | Except.ok stories => stories)

/-- Handler `create_story` (server.py lines 165-201): build the body, POST it
to `/stories`, format a success message from the returned story, and catch
every exception into an error string. -/
def create_story (name : String) (description : Option String)
    (project_id workflow_state_id epic_id estimate : Option Int)
    (labels owner_ids : Option (List String))
    (post : String → List (String × JVal) → Except String JVal) :
    BodyRequest × String :=
  let data := create_story_body name description project_id workflow_state_id
    epic_id estimate labels owner_ids
  let res : Except String String := do
    let story ← post "/stories" data
    let sid ← jIndex story "id"
    let surl ← jIndex story "app_url"
    Except.ok ("Story created successfully with ID " ++ pyStr sid ++
      " and URL " ++ pyStr surl)
  (⟨"POST", "/stories", data⟩,
   match res with
   | Except.ok s => s
   | Except.error e => "Error creating story: " ++ e)

/-- Handler `update_story` (server.py lines 203-240): build the body, PUT it
to `/stories/{story_id}`, and catch every exception into an error string. -/
def update_story (story_id : Int) (name description : Option String)
    (project_id workflow_state_id epic_id estimate : Option Int)
    (labels owner_ids : Option (List String))
    (put : String → List (String × JVal) → Except String JVal) :
    BodyRequest × String :=
  let data := update_story_body name description project_id workflow_state_id
    epic_id estimate labels owner_ids
  let res : Except String String := do
    let story ← put ("/stories/" ++ toString story_id) data
    let surl ← jIndex story "app_url"
    Except.ok ("Story " ++ toString story_id ++ " updated successfully. URL: "
      ++ pyStr surl)
  (⟨"PUT", "/stories/" ++ toString story_id, data⟩,
   match res with
   | Except.ok s => s
   | Except.error e => "Error updating story: " ++ e)

/-- Handler `create_epic` (server.py lines 242-270). -/
def create_epic (name : String) (description : Option String)
    (milestone_id : Option Int) (state start_date end_date : Option String)
    (post : String → List (String × JVal) → Except String JVal) :
    BodyRequest × String :=
  let data := create_epic_body name description milestone_id state start_date
    end_date
  let res : Except String String := do
    let epic ← post "/epics" data
    let eid ← jIndex epic "id"
    let eurl ← jIndex epic "app_url"
    Except.ok ("Epic created successfully with ID " ++ pyStr eid ++
      " and URL " ++ pyStr eurl)
  (⟨"POST", "/epics", data⟩,
   match res with
   | Except.ok s => s
   | Except.error e => "Error creating epic: " ++ e)

/-- Handler `create_milestone` (server.py lines 272-294). -/
def create_milestone (name : String)
    (description start_date end_date : Option String)
    (post : String → List (String × JVal) → Except String JVal) :
    BodyRequest × String :=
  let data := create_milestone_body name description start_date end_date
  let res : Except String String := do
    let milestone ← post "/milestones" data
    let mid ← jIndex milestone "id"
    Except.ok ("Milestone created successfully with ID " ++ pyStr mid)
  (⟨"POST", "/milestones", data⟩,
   match res with
   | Except.ok s => s
   | Except.error e => "Error creating milestone: " ++ e)

/-- Handler `create_iteration` (server.py lines 296-321). -/
def create_iteration (name : String)
    (description start_date end_date : Option String)
    (group_ids : Option (List String))
    (post : String → List (String × JVal) → Except String JVal) :
    BodyRequest × String :=
  let data := create_iteration_body name description start_date end_date
    group_ids
  let res : Except String String := do
    let iteration ← post "/iterations" data
    let iid ← jIndex iteration "id"
    Except.ok ("Iteration created successfully with ID " ++ pyStr iid)
  (⟨"POST", "/iterations", data⟩,
   match res with
   | Except.ok s => s
   | Except.error e => "Error creating iteration: " ++ e)

/-- Handler `create_label` (server.py lines 323-335). -/
def create_label (name : String) (description : Option String)
    (post : String → List (String × JVal) → Except String JVal) :
    BodyRequest × String :=
  let data := create_label_body name description
  let res : Except String String := do
    let label ← post "/labels" data
    let lid ← jIndex label "id"
    Except.ok ("Label \x27" ++ name ++ "\x27 created successfully with ID " ++
      pyStr lid)
  (⟨"POST", "/labels", data⟩,
   match res with
   | Except.ok s => s
   | Except.error e => "Error creating label: " ++ e)

/-!
Read-only list/get handlers (server.py lines 31-141). Each one is a single
`return await client.get(...)` with no `try/except`: in the embedding the
handler's result is literally the client's result, for an arbitrary exception
type `ε`.
-/

def list_members {ε : Type}
    (get : String → Option (List (String × JVal)) → Except ε JVal) :
    Except ε JVal := get "/members" none

def get_member {ε : Type} (member_id : String)
    (get : String → Option (List (String × JVal)) → Except ε JVal) :
    Except ε JVal := get ("/members/" ++ member_id) none

def list_stories {ε : Type}
    (get : String → Option (List (String × JVal)) → Except ε JVal) :
    Except ε JVal := get "/stories" none

def get_story {ε : Type} (story_id : Int)
    (get : String → Option (List (String × JVal)) → Except ε JVal) :
    Except ε JVal := get ("/stories/" ++ toString story_id) none

def list_epics {ε : Type}
    (get : String → Option (List (String × JVal)) → Except ε JVal) :
    Except ε JVal := get "/epics" none

def get_epic {ε : Type} (epic_id : Int)
    (get : String → Option (List (String × JVal)) → Except ε JVal) :
    Except ε JVal := get ("/epics/" ++ toString epic_id) none

def list_milestones {ε : Type}
    (get : String → Option (List (String × JVal)) → Except ε JVal) :
    Except ε JVal := get "/milestones" none

def get_milestone {ε : Type} (milestone_id : Int)
    (get : String → Option (List (String × JVal)) → Except ε JVal) :
    Except ε JVal := get ("/milestones/" ++ toString milestone_id) none

def list_projects {ε : Type}
    (get : String → Option (List (String × JVal)) → Except ε JVal) :
    Except ε JVal := get "/projects" none

def get_project {ε : Type} (project_id : Int)
    (get : String → Option (List (String × JVal)) → Except ε JVal) :
    Except ε JVal := get ("/projects/" ++ toString project_id) none

def list_workflows {ε : Type}
    (get : String → Option (List (String × JVal)) → Except ε JVal) :
    Except ε JVal := get "/workflows" none

def get_workflow {ε : Type} (workflow_id : Int)
    (get : String → Option (List (String × JVal)) → Except ε JVal) :
    Except ε JVal := get ("/workflows/" ++ toString workflow_id) none

def list_iterations {ε : Type}
    (get : String → Option (List (String × JVal)) → Except ε JVal) :
    Except ε JVal := get "/iterations" none

def get_iteration {ε : Type} (iteration_id : Int)
    (get : String → Option (List (String × JVal)) → Except ε JVal) :
    Except ε JVal := get ("/iterations/" ++ toString iteration_id) none

def list_labels {ε : Type}
    (get : String → Option (List (String × JVal)) → Except ε JVal) :
    Except ε JVal := get "/labels" none

def list_teams {ε : Type}
    (get : String → Option (List (String × JVal)) → Except ε JVal) :
    Except ε JVal := get "/teams" none

/-!
Embedding of `client.py`. The constructor arguments come from `os.getenv` in
`server.py`, so they are `Option String` (`none` is Python `None`). Each verb
method is pure state-passing: it returns the HTTP request it issued, its
result, and the client object as it stands after the call (the methods assign
nothing to `self`, which the embedding makes explicit by returning the client).
-/

/-- Value of an HTTP header; `none` is Python `None` placed in the dict. -/
abbrev HeaderVal := Option String

/-- The client state built by `ShortcutClient.__init__` (client.py 7-14). -/
structure ShortcutClient where
  api_token : Option String
  base_url : Option String
  headers : List (String × HeaderVal)
  deriving Repr

/-- `ShortcutClient.__init__(api_url, api_token, user_agent)`: stores the
token and base URL and builds the fixed header dict. No validation of any
argument is performed. -/
def ShortcutClient.init (api_url api_token user_agent : Option String) :
    ShortcutClient :=
  ⟨api_token, api_url,
   [("Content-Type", some "application/json"),
    ("Shortcut-Token", api_token),
    ("User-Agent", user_agent)]⟩

/-- Python f-string interpolation of a string-or-None value
(`f"{self.base_url}{endpoint}"` renders `None` as `"None"`). -/
def fstringOpt : Option String → String
  | none => "None"
  | some s => s

/-- An HTTP request as handed to `httpx`. -/
structure HttpRequest where
  method : String
  url : String
  headers : List (String × HeaderVal)
  params : Option (List (String × JVal))
  jsonBody : Option (List (String × JVal))
  timeoutSeconds : Nat
  deriving Repr

/-- An HTTP response: status code, body text, and the outcome of parsing the
body as JSON (`response.json()` raises when the body is not valid JSON). -/
structure HttpResponse where
  status : Nat
  text : String
  jsonResult : Except String JVal

/-- Errors a client verb can surface: `HTTPStatusError` from
`raise_for_status` (carrying the response status and body), or a JSON decode
failure from `response.json()`. -/
inductive ClientError where
  | httpStatus (status : Nat) (body : String)
  | jsonDecode (msg : String)
  deriving Repr

/-- httpx success statuses: `2xx`. -/
def is_success (status : Nat) : Bool := 200 ≤ status && status < 300

/-- `response.raise_for_status()`: raises `HTTPStatusError` exactly when the
status is not `2xx`. -/
def raise_for_status (r : HttpResponse) : Except ClientError Unit :=
  if is_success r.status then Except.ok ()
  else Except.error (ClientError.httpStatus r.status r.text)

/-- Shared tail of `get`/`post`/`put`: `raise_for_status` then
`response.json()`. -/
def parseJsonResponse (resp : HttpResponse) : Except ClientError JVal :=
  match raise_for_status resp with
  | Except.error e => Except.error e
  | Except.ok _ =>
    match resp.jsonResult with
    | Except.ok j => Except.ok j
    | Except.error m => Except.error (ClientError.jsonDecode m)

/-- `ShortcutClient.get` (client.py 16-25). -/
def ShortcutClient.get (c : ShortcutClient) (endpoint : String)
    (params : Option (List (String × JVal)))
    (transport : HttpRequest → HttpResponse) :
    HttpRequest × Except ClientError JVal × ShortcutClient :=
  let req : HttpRequest :=
    ⟨"GET", fstringOpt c.base_url ++ endpoint, c.headers, params, none, 30⟩
  (req, parseJsonResponse (transport req), c)

/-- `ShortcutClient.post` (client.py 27-36). -/
def ShortcutClient.post (c : ShortcutClient) (endpoint : String)
    (data : List (String × JVal)) (transport : HttpRequest → HttpResponse) :
    HttpRequest × Except ClientError JVal × ShortcutClient :=
  let req : HttpRequest :=
    ⟨"POST", fstringOpt c.base_url ++ endpoint, c.headers, none, some data, 30⟩
  (req, parseJsonResponse (transport req), c)

/-- `ShortcutClient.put` (client.py 38-47). -/
def ShortcutClient.put (c : ShortcutClient) (endpoint : String)
    (data : List (String × JVal)) (transport : HttpRequest → HttpResponse) :
    HttpRequest × Except ClientError JVal × ShortcutClient :=
  let req : HttpRequest :=
    ⟨"PUT", fstringOpt c.base_url ++ endpoint, c.headers, none, some data, 30⟩
  (req, parseJsonResponse (transport req), c)

/-- `ShortcutClient.delete` (client.py 49-57): after `raise_for_status`, the
*status code* is returned, not the body. -/
def ShortcutClient.delete (c : ShortcutClient) (endpoint : String)
    (transport : HttpRequest → HttpResponse) :
    HttpRequest × Except ClientError Nat × ShortcutClient :=
  let req : HttpRequest :=
    ⟨"DELETE", fstringOpt c.base_url ++ endpoint, c.headers, none, none, 30⟩
  let resp := transport req
  let res : Except ClientError Nat :=
    match raise_for_status resp with
    | Except.error e => Except.error e
    | Except.ok _ => Except.ok resp.status
  (req, res, c)

/-- One abstract client method invocation (used to talk about arbitrary call
sequences on one client object). -/
inductive ClientOp where
  | opGet (endpoint : String) (params : Option (List (String × JVal)))
  | opPost (endpoint : String) (data : List (String × JVal))
  | opPut (endpoint : String) (data : List (String × JVal))
  | opDelete (endpoint : String)

/-- Execute one client method, keeping the issued request and the client
object the method leaves behind. -/
def runOp (c : ShortcutClient) (transport : HttpRequest → HttpResponse) :
    ClientOp → HttpRequest × ShortcutClient
  | ClientOp.opGet e p => let r := c.get e p transport; (r.1, r.2.2)
  | ClientOp.opPost e d => let r := c.post e d transport; (r.1, r.2.2)
  | ClientOp.opPut e d => let r := c.put e d transport; (r.1, r.2.2)
  | ClientOp.opDelete e => let r := c.delete e transport; (r.1, r.2.2)

/-- Execute a sequence of client method calls, threading the client object
through and collecting every issued request. -/
def runOps (c : ShortcutClient) (transport : HttpRequest → HttpResponse) :
    List ClientOp → List HttpRequest × ShortcutClient
  | [] => ([], c)
  | op :: rest =>
    let r := runOp c transport op
    let rr := runOps r.2 transport rest
    (r.1 :: rr.1, rr.2)

/-- The `__main__` startup block of `server.py` (lines 1744-1757): read the
environment, raise `ValueError` (here: `Except.error` with the logged
message) when the token is unset or empty, otherwise construct the global
`ShortcutClient`. The user agent defaults to `os.getenv("SHORTCUT_USER_AGENT")`
(client.py line 7). -/
def startup_main (env : String → Option String) : Except String ShortcutClient :=
  let api_token := env "SHORTCUT_API_TOKEN"
  let api_url := env "SHORTCUT_API_URL"
  if truthyStr api_token then
    Except.ok (ShortcutClient.init api_url api_token (env "SHORTCUT_USER_AGENT"))
  else
    Except.error "SHORTCUT_API_TOKEN environment variable not set"

/-!
Theorems for the specification claims.
-/

/-- A transport that returns the same response to every request (used to
instantiate the client theorems at concrete inputs). -/
def constTransport (resp : HttpResponse) : HttpRequest → HttpResponse :=
  fun _ => resp

theorem exceptBind_ok {α β γ : Type} (a : α) (f : α → Except γ β) :
    (Except.ok a >>= f : Except γ β) = f a := rfl

theorem exceptBind_error {α β γ : Type} (e : γ) (f : α → Except γ β) :
    (Except.error e >>= f : Except γ β) = Except.error e := rfl

/-- C1 counterexample: the body-inclusion rule "key present iff the optional
parameter is supplied non-falsy" fails on the code at two places.
`update_story` with `estimate = 0` (falsy) still emits the `"estimate"` key,
and `create_iteration` with `start_date` unsupplied still emits the
`"start_date"` key (as JSON null). -/
theorem C1_counterexample :
    truthyInt (some 0) = false
    ∧ hasKey (update_story_body none none none none none (some 0) none none)
        "estimate" = true
    ∧ hasKey (create_iteration_body "Sprint 1" none none none none)
        "start_date" = true := by
  refine ⟨rfl, ?_, ?_⟩ <;> rfl

/-- C1 (amended): for `create_story`, `create_epic`, `create_milestone`,
`create_label`, the `description`/`group_ids` parameters of
`create_iteration`, and every optional parameter of `update_story` except
`estimate`, the request body contains the corresponding key iff the parameter
was supplied with a non-falsy value. The two exceptions: `update_story`
includes `"estimate"` iff the parameter is not `None` (so `0` is kept), and
`create_iteration` always includes `"start_date"` and `"end_date"` (null when
unsupplied). -/
theorem C1_theorem (n : String) (d : Option String)
    (p w e est : Option Int) (l o : Option (List String))
    (nm2 d2 : Option String) (p2 w2 e2 est2 : Option Int)
    (l2 o2 : Option (List String))
    (n3 : String) (d3 : Option String) (m3 : Option Int)
    (st3 sd3 ed3 : Option String)
    (n4 : String) (d4 sd4 ed4 : Option String)
    (n5 : String) (d5 sd5 ed5 : Option String) (g5 : Option (List String))
    (n6 : String) (d6 : Option String) :
    -- create_story
    (hasKey (create_story_body n d p w e est l o) "description" = truthyStr d
    ∧ hasKey (create_story_body n d p w e est l o) "project_id" = truthyInt p
    ∧ hasKey (create_story_body n d p w e est l o) "workflow_state_id" =
        truthyInt w
    ∧ hasKey (create_story_body n d p w e est l o) "epic_id" = truthyInt e
    ∧ hasKey (create_story_body n d p w e est l o) "estimate" = truthyInt est
    ∧ hasKey (create_story_body n d p w e est l o) "labels" = truthyStrList l
    ∧ hasKey (create_story_body n d p w e est l o) "owner_ids" =
        truthyStrList o)
    -- update_story: truthiness everywhere except estimate, which is `isSome`
    ∧ (hasKey (update_story_body nm2 d2 p2 w2 e2 est2 l2 o2) "name" =
        truthyStr nm2
    ∧ hasKey (update_story_body nm2 d2 p2 w2 e2 est2 l2 o2) "description" =
        truthyStr d2
    ∧ hasKey (update_story_body nm2 d2 p2 w2 e2 est2 l2 o2) "project_id" =
        truthyInt p2
    ∧ hasKey (update_story_body nm2 d2 p2 w2 e2 est2 l2 o2)
        "workflow_state_id" = truthyInt w2
    ∧ hasKey (update_story_body nm2 d2 p2 w2 e2 est2 l2 o2) "epic_id" =
        truthyInt e2
    ∧ hasKey (update_story_body nm2 d2 p2 w2 e2 est2 l2 o2) "estimate" =
        est2.isSome
    ∧ hasKey (update_story_body nm2 d2 p2 w2 e2 est2 l2 o2) "labels" =
        truthyStrList l2
    ∧ hasKey (update_story_body nm2 d2 p2 w2 e2 est2 l2 o2) "owner_ids" =
        truthyStrList o2)
    -- create_epic
    ∧ (hasKey (create_epic_body n3 d3 m3 st3 sd3 ed3) "description" =
        truthyStr d3
    ∧ hasKey (create_epic_body n3 d3 m3 st3 sd3 ed3) "milestone_id" =
        truthyInt m3
    ∧ hasKey (create_epic_body n3 d3 m3 st3 sd3 ed3) "state" = truthyStr st3
    ∧ hasKey (create_epic_body n3 d3 m3 st3 sd3 ed3) "start_date" =
        truthyStr sd3
    ∧ hasKey (create_epic_body n3 d3 m3 st3 sd3 ed3) "deadline" =
        truthyStr ed3)
    -- create_milestone
    ∧ (hasKey (create_milestone_body n4 d4 sd4 ed4) "description" =
        truthyStr d4
    ∧ hasKey (create_milestone_body n4 d4 sd4 ed4) "started_at_override" =
        truthyStr sd4
    ∧ hasKey (create_milestone_body n4 d4 sd4 ed4) "completed_at_override" =
        truthyStr ed4)
    -- create_iteration: start_date / end_date unconditionally present
    ∧ (hasKey (create_iteration_body n5 d5 sd5 ed5 g5) "description" =
        truthyStr d5
    ∧ hasKey (create_iteration_body n5 d5 sd5 ed5 g5) "group_ids" =
        truthyStrList g5
    ∧ hasKey (create_iteration_body n5 d5 sd5 ed5 g5) "start_date" = true
    ∧ hasKey (create_iteration_body n5 d5 sd5 ed5 g5) "end_date" = true)
    -- create_label
    ∧ hasKey (create_label_body n6 d6) "description" = truthyStr d6 := by
  simp [create_story_body, update_story_body, create_epic_body,
    create_milestone_body, create_iteration_body, create_label_body,
    hasKey_append, hasKey_cons, hasKey_singleton, hasKey_optStrField,
    hasKey_optIntField, hasKey_optIntFieldIfNotNone, hasKey_labelsField,
    hasKey_optStrListField]

/-- C2: `create_story` drops `estimate = 0` (its check is truthiness, and `0`
is falsy), while `update_story` keeps `estimate = 0` (its check is
`is not None`): the two handlers treat `estimate = 0` asymmetrically. -/
theorem C2_theorem (n : String) (d : Option String) (p w e : Option Int)
    (l o : Option (List String)) (nm2 d2 : Option String)
    (p2 w2 e2 : Option Int) (l2 o2 : Option (List String)) :
    hasKey (create_story_body n d p w e (some 0) l o) "estimate" = false
    ∧ ("estimate", JVal.jint 0) ∈ update_story_body nm2 d2 p2 w2 e2 (some 0) l2 o2 := by
  constructor
  · simp [create_story_body, hasKey_append, hasKey_cons, hasKey_singleton,
      hasKey_optStrField, hasKey_optIntField, hasKey_labelsField,
      hasKey_optStrListField, truthyInt]
  · simp [update_story_body, optIntFieldIfNotNone]


theorem exceptBindRaw_ok {α β γ : Type} (a : α) (f : α → Except γ β) :
    Except.bind (Except.ok a) f = f a := rfl

theorem exceptBindRaw_error {α β γ : Type} (e : γ) (f : α → Except γ β) :
    Except.bind (Except.error e) f = Except.error e := rfl

/-- A well-formed entry of a `/search` response: an object carrying a `type`
tag and a `data` payload. -/
def searchEntry (ty : String) (payload : JVal) : JVal :=
  JVal.jobj [("type", JVal.jstr ty), ("data", payload)]

/-- A well-formed `/search` response: an object whose `data` field is the
list of entries. -/
def searchResponse (entries : List (String × JVal)) : JVal :=
  JVal.jobj [("data", JVal.jarr (entries.map (fun en => searchEntry en.1 en.2)))]

theorem search_filter_entries (entries : List (String × JVal)) :
    search_filter (entries.map (fun en => searchEntry en.1 en.2)) =
      Except.ok ((entries.filter (fun en => en.1 == "story")).map Prod.snd) := by
  induction entries with
  | nil => rfl
  | cons en rest ih =>
    simp only [searchEntry] at ih
    by_cases h : en.1 = "story" <;>
      simp [search_filter, searchEntry, jIndex, List.lookup, h, ih,
        exceptBind_ok, exceptBind_error, exceptBindRaw_ok, exceptBindRaw_error,
        List.filter_cons]

theorem search_collect_response (entries : List (String × JVal)) :
    search_collect (searchResponse entries) =
      Except.ok ((entries.filter (fun en => en.1 == "story")).map Prod.snd) := by
  cases entries with
  | nil => rfl
  | cons en rest =>
    have hsf := search_filter_entries (en :: rest)
    simp only [List.map_cons] at hsf
    simp [search_collect, searchResponse, jHasKey, jIndex, jTruthy,
      List.lookup, hsf, exceptBind_ok, exceptBindRaw_ok]

/-- C3: `search_stories` issues exactly one GET to `/search`, with parameters
`query=<query>` and `page_size=25`, and on a well-formed response returns
exactly the `data` payloads of the story-typed entries in order, discarding
the rest; in particular a response holding two story entries and one epic
entry yields exactly the two story payloads. -/
theorem C3_theorem {ε : Type} (query : String)
    (get : String → Option (List (String × JVal)) → Except ε JVal)
    (entries : List (String × JVal)) :
    (search_stories query get).1 =
      [⟨"/search", some [("query", JVal.jstr query), ("page_size", JVal.jint 25)]⟩]
    ∧ (search_stories query
        (fun _ _ => (Except.ok (searchResponse entries) : Except String JVal))).2 =
        (entries.filter (fun en => en.1 == "story")).map Prod.snd
    ∧ (search_stories "foo"
        (fun _ _ => (Except.ok (searchResponse
          [("story", JVal.jint 1), ("epic", JVal.jint 2), ("story", JVal.jint 3)]) :
          Except String JVal))).2 =
        [JVal.jint 1, JVal.jint 3] := by
  refine ⟨rfl, ?_, rfl⟩
  simp [search_stories, search_collect_response]

/-- C4: when the underlying client call raises (whatever the exception
message `e`), each create/update handler returns the error string formed from
its fixed marker followed by `str(e)` — so the result begins with the
handler's error marker and contains the underlying message, and the exception
is never propagated. -/
theorem C4_theorem (e : String) (n : String) (d : Option String)
    (p w ei est : Option Int) (l o : Option (List String)) (sid : Int)
    (nm2 : Option String) (mi : Option Int) (st sd ed : Option String)
    (g : Option (List String)) :
    (create_story n d p w ei est l o (fun _ _ => Except.error e)).2 =
      "Error creating story: " ++ e
    ∧ (update_story sid nm2 d p w ei est l o (fun _ _ => Except.error e)).2 =
      "Error updating story: " ++ e
    ∧ (create_epic n d mi st sd ed (fun _ _ => Except.error e)).2 =
      "Error creating epic: " ++ e
    ∧ (create_milestone n d sd ed (fun _ _ => Except.error e)).2 =
      "Error creating milestone: " ++ e
    ∧ (create_iteration n d sd ed g (fun _ _ => Except.error e)).2 =
      "Error creating iteration: " ++ e
    ∧ (create_label n d (fun _ _ => Except.error e)).2 =
      "Error creating label: " ++ e :=
  ⟨rfl, rfl, rfl, rfl, rfl, rfl⟩

/-- C5: when the client call inside `search_stories` raises (any exception
value, of any type), the handler returns the empty list instead of
propagating it. -/
theorem C5_theorem {ε : Type} (query : String) (err : ε) :
    (search_stories query (fun _ _ => Except.error err)).2 = [] := rfl

/-- C6: for every client verb, a non-2xx response makes the call fail with an
`HTTPStatusError` carrying the response status and body; a 2xx response makes
`get`/`post`/`put` return the parsed JSON body and `delete` return the
numeric status code. -/
theorem C6_theorem (c : ShortcutClient) (endpoint : String)
    (params : Option (List (String × JVal))) (data : List (String × JVal))
    (resp : HttpResponse) (j : JVal) :
    (is_success resp.status = false →
      (c.get endpoint params (constTransport resp)).2.1 =
        Except.error (ClientError.httpStatus resp.status resp.text)
      ∧ (c.post endpoint data (constTransport resp)).2.1 =
        Except.error (ClientError.httpStatus resp.status resp.text)
      ∧ (c.put endpoint data (constTransport resp)).2.1 =
        Except.error (ClientError.httpStatus resp.status resp.text)
      ∧ (c.delete endpoint (constTransport resp)).2.1 =
        Except.error (ClientError.httpStatus resp.status resp.text))
    ∧ (is_success resp.status = true →
      (resp.jsonResult = Except.ok j →
        (c.get endpoint params (constTransport resp)).2.1 = Except.ok j
        ∧ (c.post endpoint data (constTransport resp)).2.1 = Except.ok j
        ∧ (c.put endpoint data (constTransport resp)).2.1 = Except.ok j)
      ∧ (c.delete endpoint (constTransport resp)).2.1 = Except.ok resp.status) := by
  constructor
  · intro h
    refine ⟨?_, ?_, ?_, ?_⟩ <;>
      simp [ShortcutClient.get, ShortcutClient.post, ShortcutClient.put,
        ShortcutClient.delete, constTransport, parseJsonResponse,
        raise_for_status, h]
  · intro h
    constructor
    · intro hj
      refine ⟨?_, ?_, ?_⟩ <;>
        simp [ShortcutClient.get, ShortcutClient.post, ShortcutClient.put,
          constTransport, parseJsonResponse, raise_for_status, h, hj]
    · simp [ShortcutClient.delete, constTransport, raise_for_status, h]

/-- Witness for C6: a concrete client, a 404 response (error carrying status
and body), a 200 JSON response (parsed body returned), and a 204 delete
(numeric status returned). -/
theorem C6_witness :
    ((ShortcutClient.init (some "https://api.app.shortcut.com/api/v3")
        (some "tok") none).get "/members" none
        (constTransport ⟨404, "Not Found", Except.error "bad json"⟩)).2.1 =
      Except.error (ClientError.httpStatus 404 "Not Found")
    ∧ ((ShortcutClient.init (some "u") (some "tok") none).get "/members" none
        (constTransport ⟨200, "[]", Except.ok (JVal.jarr [])⟩)).2.1 =
      Except.ok (JVal.jarr [])
    ∧ ((ShortcutClient.init (some "u") (some "tok") none).delete "/stories/1"
        (constTransport ⟨204, "", Except.ok JVal.jnull⟩)).2.1 =
      Except.ok 204 :=
  ⟨((C6_theorem (ShortcutClient.init (some "https://api.app.shortcut.com/api/v3")
      (some "tok") none) "/members" none []
      ⟨404, "Not Found", Except.error "bad json"⟩ JVal.jnull).1 rfl).1,
   (((C6_theorem (ShortcutClient.init (some "u") (some "tok") none) "/members"
      none [] ⟨200, "[]", Except.ok (JVal.jarr [])⟩ (JVal.jarr [])).2 rfl).1
      rfl).1,
   ((C6_theorem (ShortcutClient.init (some "u") (some "tok") none) "/stories/1"
      none [] ⟨204, "", Except.ok JVal.jnull⟩ JVal.jnull).2 rfl).2⟩

/-- C7 counterexample: `ShortcutClient.__init__` does not validate the token.
Constructing a client with an absent (`None`) token succeeds and yields an
ordinary client object whose stored token and `Shortcut-Token` header are
`None` — no error is raised at construction time. -/
theorem C7_counterexample :
    ShortcutClient.init (some "https://api.app.shortcut.com/api/v3") none none =
      ⟨none, some "https://api.app.shortcut.com/api/v3",
       [("Content-Type", some "application/json"),
        ("Shortcut-Token", none),
        ("User-Agent", none)]⟩ := rfl

/-- C7 (amended): the fail-fast check lives in the `__main__` startup block,
not in the client constructor: when `SHORTCUT_API_TOKEN` is unset or empty,
startup raises `ValueError` before any `ShortcutClient` is constructed, so no
client exists and no request is ever issued. -/
theorem C7_theorem (env : String → Option String)
    (h : truthyStr (env "SHORTCUT_API_TOKEN") = false) :
    startup_main env =
      Except.error "SHORTCUT_API_TOKEN environment variable not set"
    ∧ ∀ c : ShortcutClient, startup_main env ≠ Except.ok c := by
  have hmain : startup_main env =
      Except.error "SHORTCUT_API_TOKEN environment variable not set" := by
    simp [startup_main, h]
  exact ⟨hmain, fun c hc => by simp [hmain] at hc⟩

/-- Witness for C7: an environment with no variables set makes startup fail
with the `ValueError` message. -/
theorem C7_witness :
    startup_main (fun _ => none) =
      Except.error "SHORTCUT_API_TOKEN environment variable not set" :=
  (C7_theorem (fun _ => none) rfl).1

/-- C8: every read-only list/get handler is a bare `return await
client.get(...)` with no local error handling: when the client's `get` raises
an exception `err` (of any type), the handler's outcome is that same
exception, unchanged, with no substitute value. -/
theorem C8_theorem {ε : Type} (err : ε) (member_id : String)
    (story_id epic_id milestone_id project_id workflow_id iteration_id : Int) :
    list_members (fun _ _ => (Except.error err : Except ε JVal)) = Except.error err
    ∧ get_member member_id (fun _ _ => Except.error err) = Except.error err
    ∧ list_stories (fun _ _ => (Except.error err : Except ε JVal)) = Except.error err
    ∧ get_story story_id (fun _ _ => Except.error err) = Except.error err
    ∧ list_epics (fun _ _ => (Except.error err : Except ε JVal)) = Except.error err
    ∧ get_epic epic_id (fun _ _ => Except.error err) = Except.error err
    ∧ list_milestones (fun _ _ => (Except.error err : Except ε JVal)) = Except.error err
    ∧ get_milestone milestone_id (fun _ _ => Except.error err) = Except.error err
    ∧ list_projects (fun _ _ => (Except.error err : Except ε JVal)) = Except.error err
    ∧ get_project project_id (fun _ _ => Except.error err) = Except.error err
    ∧ list_workflows (fun _ _ => (Except.error err : Except ε JVal)) = Except.error err
    ∧ get_workflow workflow_id (fun _ _ => Except.error err) = Except.error err
    ∧ list_iterations (fun _ _ => (Except.error err : Except ε JVal)) = Except.error err
    ∧ get_iteration iteration_id (fun _ _ => Except.error err) = Except.error err
    ∧ list_labels (fun _ _ => (Except.error err : Except ε JVal)) = Except.error err
    ∧ list_teams (fun _ _ => (Except.error err : Except ε JVal)) = Except.error err :=
  ⟨rfl, rfl, rfl, rfl, rfl, rfl, rfl, rfl, rfl, rfl, rfl, rfl, rfl, rfl, rfl,
   rfl⟩

theorem runOp_preserves (c : ShortcutClient)
    (transport : HttpRequest → HttpResponse) (op : ClientOp) :
    (runOp c transport op).2 = c
    ∧ (runOp c transport op).1.headers = c.headers
    ∧ ∃ ep, (runOp c transport op).1.url = fstringOpt c.base_url ++ ep := by
  cases op with
  | opGet e p => exact ⟨rfl, rfl, e, rfl⟩
  | opPost e d => exact ⟨rfl, rfl, e, rfl⟩
  | opPut e d => exact ⟨rfl, rfl, e, rfl⟩
  | opDelete e => exact ⟨rfl, rfl, e, rfl⟩

theorem runOps_preserves (c : ShortcutClient)
    (transport : HttpRequest → HttpResponse) (ops : List ClientOp) :
    (runOps c transport ops).2 = c
    ∧ List.Forall
        (fun req => req.headers = c.headers
          ∧ ∃ ep, req.url = fstringOpt c.base_url ++ ep)
        (runOps c transport ops).1 := by
  induction ops with
  | nil => exact ⟨rfl, trivial⟩
  | cons op rest ih =>
    obtain ⟨h2, hh, hurl⟩ := runOp_preserves c transport op
    refine ⟨?_, ?_⟩
    · show (runOps (runOp c transport op).2 transport rest).2 = c
      rw [h2]; exact ih.1
    · show List.Forall _
        ((runOp c transport op).1 :: (runOps (runOp c transport op).2 transport rest).1)
      rw [List.forall_cons, h2]
      exact ⟨⟨hh, hurl⟩, ih.2⟩

/-- C9: the client configuration is never mutated after construction: for any
sequence of `get`/`post`/`put`/`delete` calls, the client object after the
sequence equals the constructed one, and every issued request carries exactly
the constructor's header dict (including the `Shortcut-Token` entry holding
the constructor's token) and a URL formed from the constructor's base URL. -/
theorem C9_theorem (api_url api_token user_agent : Option String)
    (transport : HttpRequest → HttpResponse) (ops : List ClientOp) :
    (runOps (ShortcutClient.init api_url api_token user_agent) transport ops).2
      = ShortcutClient.init api_url api_token user_agent
    ∧ List.Forall
        (fun req =>
          req.headers = [("Content-Type", some "application/json"),
            ("Shortcut-Token", api_token), ("User-Agent", user_agent)]
          ∧ ∃ ep, req.url = fstringOpt api_url ++ ep)
        (runOps (ShortcutClient.init api_url api_token user_agent) transport
          ops).1 :=
  runOps_preserves (ShortcutClient.init api_url api_token user_agent)
    transport ops

/-- C10: the date parameters that `create_epic` and `create_milestone` rename
are sent only under their renamed keys: `create_epic` never emits an
`"end_date"` key and emits `"deadline"` exactly when `end_date` is supplied
non-falsy (with the supplied value); `create_milestone` never emits a
`"start_date"` or `"end_date"` key and emits `"started_at_override"` /
`"completed_at_override"` exactly when `start_date` / `end_date` are supplied
non-falsy (with the supplied values). -/
theorem C10_theorem (n : String) (d : Option String) (m : Option Int)
    (st sd ed : Option String) (n2 : String) (d2 sd2 ed2 : Option String) :
    hasKey (create_epic_body n d m st sd ed) "end_date" = false
    ∧ hasKey (create_epic_body n d m st sd ed) "deadline" = truthyStr ed
    ∧ (∀ s : String, s.isEmpty = false →
        ("deadline", JVal.jstr s) ∈ create_epic_body n d m st sd (some s))
    ∧ hasKey (create_milestone_body n2 d2 sd2 ed2) "start_date" = false
    ∧ hasKey (create_milestone_body n2 d2 sd2 ed2) "end_date" = false
    ∧ hasKey (create_milestone_body n2 d2 sd2 ed2) "started_at_override" =
        truthyStr sd2
    ∧ hasKey (create_milestone_body n2 d2 sd2 ed2) "completed_at_override" =
        truthyStr ed2
    ∧ (∀ s : String, s.isEmpty = false →
        ("started_at_override", JVal.jstr s) ∈
          create_milestone_body n2 d2 (some s) ed2)
    ∧ (∀ s : String, s.isEmpty = false →
        ("completed_at_override", JVal.jstr s) ∈
          create_milestone_body n2 d2 sd2 (some s)) := by
  refine ⟨?_, ?_, ?_, ?_, ?_, ?_, ?_, ?_, ?_⟩
  · simp [create_epic_body, hasKey_append, hasKey_cons, hasKey_singleton,
      hasKey_optStrField, hasKey_optIntField]
  · simp [create_epic_body, hasKey_append, hasKey_cons, hasKey_singleton,
      hasKey_optStrField, hasKey_optIntField]
  · intro s hs
    simp [create_epic_body, optStrField, hs]
  · simp [create_milestone_body, hasKey_append, hasKey_cons, hasKey_singleton,
      hasKey_optStrField]
  · simp [create_milestone_body, hasKey_append, hasKey_cons, hasKey_singleton,
      hasKey_optStrField]
  · simp [create_milestone_body, hasKey_append, hasKey_cons, hasKey_singleton,
      hasKey_optStrField]
  · simp [create_milestone_body, hasKey_append, hasKey_cons, hasKey_singleton,
      hasKey_optStrField]
  · intro s hs
    simp [create_milestone_body, optStrField, hs]
  · intro s hs
    simp [create_milestone_body, optStrField, hs]

/-- Witness for C10: with concrete dates supplied, the renamed keys carry the
supplied values. -/
theorem C10_witness :
    ("deadline", JVal.jstr "2025-06-30") ∈
      create_epic_body "Epic" none none none none (some "2025-06-30")
    ∧ ("started_at_override", JVal.jstr "2025-01-01") ∈
      create_milestone_body "M1" none (some "2025-01-01") none
    ∧ ("completed_at_override", JVal.jstr "2025-03-31") ∈
      create_milestone_body "M1" none none (some "2025-03-31") :=
  by
  have h := C10_theorem "Epic" none none none none none "M1" none none none
  exact ⟨h.2.2.1 "2025-06-30" rfl, h.2.2.2.2.2.2.2.1 "2025-01-01" rfl,
    h.2.2.2.2.2.2.2.2 "2025-03-31" rfl⟩
